import Mathlib

/-!
Verification of the invoice-ingestion backend (`backend/app`): a shallow
embedding of the UBL invoice parser (`infrastructure/services/invoice_parser.py`),
the invoice / suggestion domain records (`domain/invoices.py`, `domain/ai.py`),
the in-memory repositories (`infrastructure/repositories/*`), and the
use cases (`application/use_cases/invoices.py`), together with theorems about
their behaviour.

Modelling conventions:
* `Decimal` and `float` values are embedded as exact rationals (`ℚ`); the
  decimal/float literal grammar is the sign-digits-fraction core (exponents and
  the special values `NaN`/`Infinity` are not needed by any property checked here).
* XML documents are embedded as element trees (the byte-level XML reader is the
  Python standard library, external to the repository); `ElementTree.find`
  relative-path semantics is reproduced on the tree.
* `uuid4` is modelled as a fresh-identifier supply threaded through the store.
* The `generated_at` wall-clock timestamp field of `AISuggestion` carries no
  information used anywhere and is not modelled.
-/

/-- A namespace-qualified XML tag, as resolved by `ElementTree` from the fixed
prefix map `UBLInvoiceParser._namespaces`. -/
structure QName where
  ns : String
  name : String
deriving DecidableEq

/-- An XML element: tag, attributes, text node, child elements
(image of `xml.etree.ElementTree.Element` used through the `lxml` shim). -/
inductive XmlElem where
  | mk (tag : QName) (attrs : List (String × String)) (text : Option String)
      (children : List XmlElem)

def XmlElem.tag : XmlElem → QName
  | .mk t _ _ _ => t

def XmlElem.attrs : XmlElem → List (String × String)
  | .mk _ a _ _ => a

def XmlElem.text : XmlElem → Option String
  | .mk _ _ t _ => t

def XmlElem.children : XmlElem → List XmlElem
  | .mk _ _ _ c => c

/-- `element.get(key)`: attribute lookup. -/
def XmlElem.getAttr (e : XmlElem) (key : String) : Option String :=
  (e.attrs.find? fun p => p.1 == key).map Prod.snd

/-- Direct children with the given qualified tag. -/
def childrenNamed (e : XmlElem) (t : QName) : List XmlElem :=
  e.children.filter fun c => c.tag == t

/-- `ElementTree.findall` on a relative path of qualified steps: each step
descends one level, keeping document order. -/
def findallPath (e : XmlElem) (path : List QName) : List XmlElem :=
  path.foldl (fun acc step => acc.flatMap fun el => childrenNamed el step) [e]

/-- `ElementTree.find`: first match of the relative path. -/
def findPath (e : XmlElem) (path : List QName) : Option XmlElem :=
  (findallPath e path).head?

/-- The two UBL namespaces of `UBLInvoiceParser._namespaces`. -/
def nsCbc : String := "urn:oasis:names:specification:ubl:schema:xsd:CommonBasicComponents-2"

def nsCac : String := "urn:oasis:names:specification:ubl:schema:xsd:CommonAggregateComponents-2"

def cbcQ (n : String) : QName := ⟨nsCbc, n⟩

def cacQ (n : String) : QName := ⟨nsCac, n⟩

/-- Python `str.strip()`: drop whitespace from both ends (implemented over the
character list so that it evaluates by kernel reduction). -/
def String.pyStrip (s : String) : String :=
  let cs := s.toList.dropWhile Char.isWhitespace
  String.mk (cs.reverse.dropWhile Char.isWhitespace).reverse

/-- `UBLInvoiceParser._read_text`: text of the first node on the path,
stripped; `""` when the node is missing or has no text. -/
def readText (e : XmlElem) (path : List QName) : String :=
  match findPath e path with
  | some node =>
    match node.text with
    | some t => t.pyStrip
    | none => ""
  | none => ""

/-- `UBLInvoiceParser._first_non_empty`: first truthy string, else `""`. -/
def firstNonEmpty : List String → String
  | [] => ""
  | v :: rest => if v ≠ "" then v else firstNonEmpty rest

/-- Python `a or b` where `a` is an optional string (`None` and `""` are falsy). -/
def pyOr (a : Option String) (b : String) : String :=
  match a with
  | some s => if s ≠ "" then s else b
  | none => b

/-- Python `a or b` on strings. -/
def pyOrStr (a b : String) : String :=
  if a ≠ "" then a else b

/-- Value of a nonempty digit string. -/
def digitsToNat (cs : List Char) : Nat :=
  cs.foldl (fun acc c => acc * 10 + (c.toNat - 48)) 0

/-- Unsigned decimal literal `digits[.digits]` (either part may be empty but
not both), as accepted by `decimal.Decimal`. -/
def parseUnsignedDec (cs : List Char) : Option ℚ :=
  let ip := cs.takeWhile Char.isDigit
  let rest := cs.dropWhile Char.isDigit
  match rest with
  | [] => if ip.isEmpty then none else some (digitsToNat ip : ℚ)
  | '.' :: fp =>
    if fp.all Char.isDigit && (!ip.isEmpty || !fp.isEmpty) then
      some ((digitsToNat ip : ℚ) + (digitsToNat fp : ℚ) / ((10 : ℚ) ^ fp.length))
    else none
  | _ => none

/-- `decimal.Decimal(s)` on an already-stripped literal (sign-digits-fraction
core of the grammar): `none` models `InvalidOperation`. -/
def parseDecimal (s : String) : Option ℚ :=
  match s.toList with
  | '+' :: rest => parseUnsignedDec rest
  | '-' :: rest => (parseUnsignedDec rest).map fun q => -q
  | cs => parseUnsignedDec cs

/-- A calendar date (`datetime.date`). -/
structure PyDate where
  year : Nat
  month : Nat
  day : Nat
deriving DecidableEq

def isLeapYear (y : Nat) : Bool :=
  (y % 4 == 0 && y % 100 != 0) || y % 400 == 0

def daysInMonth (y m : Nat) : Nat :=
  if m = 2 then (if isLeapYear y then 29 else 28)
  else if m = 4 ∨ m = 6 ∨ m = 9 ∨ m = 11 then 30
  else 31

/-- `date.fromisoformat` on the canonical `YYYY-MM-DD` form, validating the
calendar; `none` models the `ValueError` raised on malformed input. -/
def parseIsoDate (s : String) : Option PyDate :=
  match s.toList with
  | [y1, y2, y3, y4, '-', m1, m2, '-', d1, d2] =>
    if [y1, y2, y3, y4, m1, m2, d1, d2].all Char.isDigit then
      let y := digitsToNat [y1, y2, y3, y4]
      let m := digitsToNat [m1, m2]
      let d := digitsToNat [d1, d2]
      if 1 ≤ y ∧ y ≤ 9999 ∧ 1 ≤ m ∧ m ≤ 12 ∧ 1 ≤ d ∧ d ≤ daysInMonth y m then
        some ⟨y, m, d⟩
      else none
    else none
  | _ => none

/-- Sort key used when ordering invoices by issue date. -/
def dateKey (d : PyDate) : Nat :=
  d.year * 10000 + d.month * 100 + d.day

def padTwo (n : Nat) : String :=
  if n < 10 then "0" ++ toString n else toString n

def padFour (n : Nat) : String :=
  if n < 10 then "000" ++ toString n
  else if n < 100 then "00" ++ toString n
  else if n < 1000 then "0" ++ toString n
  else toString n

/-- `date.isoformat()`. -/
def isoDateStr (d : PyDate) : String :=
  padFour d.year ++ "-" ++ padTwo d.month ++ "-" ++ padTwo d.day

/-- The failures the embedded code can raise.  `parseError` is the parser's
`ValueError`; the four business errors are the use-case exception classes of
`application/use_cases/invoices.py`; the last two are the Python faults raised
because the `AISuggestion` dataclass has no `is_selected` field while
`_coerce_ai_suggestions` passes `is_selected=False` to its constructor and the
selection/export code reads `s.is_selected`. -/
inductive Err where
  | parseError (msg : String)
  | invalidInvoicePayload
  | invoiceAlreadyExists
  | invoiceNotFound
  | noInvoicesToExport
  | typeErrorIsSelectedKw
  | attributeErrorIsSelected
deriving DecidableEq

/-- `UBLInvoiceParser._to_decimal`: empty string (falsy) gives `Decimal("0")`;
otherwise the stripped text must be a decimal literal, else `ValueError`. -/
def toDecimal (value : String) : Except Err ℚ :=
  if value ≠ "" then
    match parseDecimal value.pyStrip with
    | some q => .ok q
    | none => .error (.parseError "No fue posible interpretar un valor numérico")
  else .ok 0

/-- `domain.invoices.InvoiceLine`. -/
structure InvoiceLine where
  line_id : String
  description : String
  quantity : ℚ
  unit_price : ℚ
  line_extension_amount : ℚ
deriving DecidableEq

/-- `domain.invoices.Invoice`. -/
structure Invoice where
  id : String
  owner_id : String
  external_id : String
  issue_date : PyDate
  supplier_name : String
  supplier_tax_id : String
  customer_name : String
  customer_tax_id : String
  currency : String
  total_amount : ℚ
  tax_amount : ℚ
  lines : List InvoiceLine := []
  original_filename : String := ""
  raw_xml : String := ""
deriving DecidableEq

/-- `domain.ai.AISuggestion`, with exactly the fields of the dataclass.  Note:
the dataclass does NOT declare an `is_selected` field (the use cases
nonetheless refer to one; see `Err.typeErrorIsSelectedKw` /
`Err.attributeErrorIsSelected`). -/
structure AISuggestion where
  account_code : String
  rationale : String
  confidence : ℚ
  source : String := "unknown"
  line_number : Option Int := none
  puc_account_id : Option String := none
  account_name : Option String := none
deriving DecidableEq

/-- The plain payload dict returned by `UBLInvoiceParser.parse`. -/
structure ParsedInvoice where
  external_id : String
  issue_date : PyDate
  supplier_name : String
  supplier_tax_id : String
  customer_name : String
  customer_tax_id : String
  currency : String
  total_amount : ℚ
  tax_amount : ℚ
  lines : List InvoiceLine
  raw_xml : String
deriving DecidableEq

/-- Body of the `for line in root.findall("cac:InvoiceLine")` loop of
`UBLInvoiceParser.parse`; `idx` is the number of lines already collected
(`len(lines)`), used for the positional `line_id` fallback. -/
def parseLine (le : XmlElem) (idx : Nat) : Except Err InvoiceLine :=
  let lineId := pyOrStr (readText le [cbcQ "ID"]) (toString (idx + 1))
  let description := firstNonEmpty
    [readText le [cacQ "Item", cbcQ "Description"],
     readText le [cacQ "Item", cacQ "ItemIdentification", cbcQ "ID"]]
  match toDecimal (readText le [cbcQ "InvoicedQuantity"]) with
  | .error e => .error e
  | .ok quantity =>
    match toDecimal (readText le [cacQ "Price", cbcQ "PriceAmount"]) with
    | .error e => .error e
    | .ok unitPrice =>
      match toDecimal (readText le [cbcQ "LineExtensionAmount"]) with
      | .error e => .error e
      | .ok lineTotal =>
        .ok ⟨lineId, description, quantity, unitPrice, lineTotal⟩

/-- The invoice-line loop of `UBLInvoiceParser.parse` over the
`cac:InvoiceLine` children, threading the positional counter. -/
def parseLines : List XmlElem → Nat → Except Err (List InvoiceLine)
  | [], _ => .ok []
  | le :: rest, n =>
    match parseLine le n with
    | .error e => .error e
    | .ok l =>
      match parseLines rest (n + 1) with
      | .error e => .error e
      | .ok ls => .ok (l :: ls)

/-- Tax total of `UBLInvoiceParser.parse`: `Decimal("0")` unless the
`cac:TaxTotal/cbc:TaxAmount` node exists with truthy text. -/
def taxAmountOf (root : XmlElem) : Except Err ℚ :=
  match findPath root [cacQ "TaxTotal", cbcQ "TaxAmount"] with
  | some te =>
    match te.text with
    | some t => if t ≠ "" then toDecimal t else .ok 0
    | none => .ok 0
  | none => .ok 0

/-- `UBLInvoiceParser.parse` on an already-read element tree (`root`) plus the
decoded source text (`rawXml`).  Mirrors the source line by line; every
`.error (.parseError _)` is a `ValueError` raise. -/
def UBLInvoiceParser.parse (root : XmlElem) (rawXml : String) : Except Err ParsedInvoice :=
  let external_id := readText root [cbcQ "ID"]
  let issueDateText := readText root [cbcQ "IssueDate"]
  if issueDateText = "" then .error (.parseError "El XML no contiene la fecha de emisión")
  else
    match parseIsoDate issueDateText with
    | none => .error (.parseError "La fecha de emisión no tiene el formato esperado")
    | some issueDate =>
      let supplierName := firstNonEmpty
        [readText root [cacQ "AccountingSupplierParty", cacQ "Party", cacQ "PartyName", cbcQ "Name"],
         readText root [cacQ "AccountingSupplierParty", cacQ "Party", cacQ "PartyLegalEntity", cbcQ "RegistrationName"]]
      let supplierTaxId := firstNonEmpty
        [readText root [cacQ "AccountingSupplierParty", cacQ "Party", cacQ "PartyTaxScheme", cbcQ "CompanyID"],
         readText root [cacQ "AccountingSupplierParty", cacQ "Party", cacQ "PartyLegalEntity", cbcQ "CompanyID"]]
      let customerName := firstNonEmpty
        [readText root [cacQ "AccountingCustomerParty", cacQ "Party", cacQ "PartyName", cbcQ "Name"],
         readText root [cacQ "AccountingCustomerParty", cacQ "Party", cacQ "PartyLegalEntity", cbcQ "RegistrationName"]]
      let customerTaxId := firstNonEmpty
        [readText root [cacQ "AccountingCustomerParty", cacQ "Party", cacQ "PartyTaxScheme", cbcQ "CompanyID"],
         readText root [cacQ "AccountingCustomerParty", cacQ "Party", cacQ "PartyLegalEntity", cbcQ "CompanyID"]]
      match findPath root [cacQ "LegalMonetaryTotal", cbcQ "PayableAmount"] with
      | none => .error (.parseError "No se encontró el total de la factura")
      | some totals =>
        match totals.text with
        | none => .error (.parseError "No se encontró el total de la factura")
        | some totalText =>
          let currency := pyOr (totals.getAttr "currencyID") (readText root [cbcQ "DocumentCurrencyCode"])
          match toDecimal totalText with
          | .error e => .error e
          | .ok totalAmount =>
            match taxAmountOf root with
            | .error e => .error e
            | .ok taxAmount =>
              match parseLines (childrenNamed root (cacQ "InvoiceLine")) 0 with
              | .error e => .error e
              | .ok lines =>
                if lines.isEmpty then
                  .error (.parseError "No se encontraron líneas de producto en la factura")
                else
                  .ok { external_id := external_id, issue_date := issueDate,
                        supplier_name := supplierName, supplier_tax_id := supplierTaxId,
                        customer_name := customerName, customer_tax_id := customerTaxId,
                        currency := currency, total_amount := totalAmount,
                        tax_amount := taxAmount, lines := lines, raw_xml := rawXml }

/-- An uploaded file as the upload use case sees it: the decoded text and the
result of the standard-library XML reader (`none` models `XMLSyntaxError`,
a subclass of `ValueError` in the `lxml` shim). -/
structure Content where
  raw : String
  tree : Option XmlElem

/-- The parser as seen from the upload use case (`etree.fromstring` followed
by field extraction); all failures are `ValueError`s. -/
def parseBytes (c : Content) : Except Err ParsedInvoice :=
  match c.tree with
  | none => .error (.parseError "No fue posible leer el XML proporcionado")
  | some root => UBLInvoiceParser.parse root c.raw

/-- Association-list update with dict semantics: replace in place, else append. -/
def dictPut {κ α : Type} [DecidableEq κ] : List (κ × α) → κ → α → List (κ × α)
  | [], k, v => [(k, v)]
  | (k0, v0) :: rest, k, v =>
    if k0 = k then (k0, v) :: rest else (k0, v0) :: dictPut rest k v

/-- Association-list lookup (`dict.get`). -/
def dictGet {κ α : Type} [DecidableEq κ] : List (κ × α) → κ → Option α
  | [], _ => none
  | (k0, v0) :: rest, k => if k0 = k then some v0 else dictGet rest k

/-- Number of entries stored under a key. -/
def countKey {κ α : Type} [DecidableEq κ] : List (κ × α) → κ → Nat
  | [], _ => 0
  | (k0, _) :: rest, k => (if k0 = k then 1 else 0) + countKey rest k

/-- `InMemoryInvoiceRepository`: `_by_id` and `_by_owner[owner][external_id]`
flattened to a pair-keyed dict, plus the fresh-identifier counter standing in
for `uuid4`. -/
structure InMemoryInvoiceRepository where
  by_id : List (String × Invoice) := []
  by_owner : List ((String × String) × Invoice) := []
  next_id : Nat := 0
deriving DecidableEq

def InMemoryInvoiceRepository.get_by_id (r : InMemoryInvoiceRepository) (iid : String) :
    Option Invoice :=
  dictGet r.by_id iid

def InMemoryInvoiceRepository.find_by_owner_and_external_id
    (r : InMemoryInvoiceRepository) (owner externalId : String) : Option Invoice :=
  dictGet r.by_owner (owner, externalId)

def InMemoryInvoiceRepository.add (r : InMemoryInvoiceRepository) (inv : Invoice) :
    InMemoryInvoiceRepository :=
  { r with
    by_id := dictPut r.by_id inv.id inv
    by_owner := dictPut r.by_owner (inv.owner_id, inv.external_id) inv }

def InMemoryInvoiceRepository.list_for_user (r : InMemoryInvoiceRepository)
    (owner : String) : List Invoice :=
  (r.by_owner.filter fun p => decide (p.1.1 = owner)).map Prod.snd

/-- `InMemoryAISuggestionRepository`. -/
structure InMemoryAISuggestionRepository where
  storage : List (String × List AISuggestion) := []
deriving DecidableEq

def InMemoryAISuggestionRepository.list_for_invoice
    (s : InMemoryAISuggestionRepository) (iid : String) : List AISuggestion :=
  (dictGet s.storage iid).getD []

def InMemoryAISuggestionRepository.replace_for_invoice
    (s : InMemoryAISuggestionRepository) (iid : String) (sugs : List AISuggestion) :
    InMemoryAISuggestionRepository :=
  ⟨dictPut s.storage iid sugs⟩

/-- `Invoice.create`: the factory, with the generated uuid passed explicitly. -/
def Invoice.create (freshId owner externalId : String) (issueDate : PyDate)
    (supplierName supplierTaxId customerName customerTaxId currency : String)
    (totalAmount taxAmount : ℚ) (lines : List InvoiceLine)
    (originalFilename rawXml : String) : Invoice :=
  { id := freshId, owner_id := owner, external_id := externalId,
    issue_date := issueDate, supplier_name := supplierName,
    supplier_tax_id := supplierTaxId, customer_name := customerName,
    customer_tax_id := customerTaxId, currency := currency,
    total_amount := totalAmount, tax_amount := taxAmount, lines := lines,
    original_filename := originalFilename, raw_xml := rawXml }

/-- `UploadInvoice.execute`.  Returns the repository state alongside the
result: every raise happens before `repository.add`, so the state is returned
unchanged on error. -/
def UploadInvoice.execute (r : InMemoryInvoiceRepository)
    (owner filename : String) (content : Content) :
    InMemoryInvoiceRepository × Except Err Invoice :=
  if content.raw.pyStrip = "" then (r, .error .invalidInvoicePayload)
  else
    match parseBytes content with
    | .error _ => (r, .error .invalidInvoicePayload)
    | .ok parsed =>
      let externalId := parsed.external_id.pyStrip
      if externalId = "" then (r, .error .invalidInvoicePayload)
      else
        match r.find_by_owner_and_external_id owner externalId with
        | some _ => (r, .error .invoiceAlreadyExists)
        | none =>
          let inv := Invoice.create ("uuid-" ++ toString r.next_id) owner externalId
            parsed.issue_date parsed.supplier_name parsed.supplier_tax_id
            parsed.customer_name parsed.customer_tax_id parsed.currency
            parsed.total_amount parsed.tax_amount parsed.lines filename parsed.raw_xml
          (InMemoryInvoiceRepository.add { r with next_id := r.next_id + 1 } inv, .ok inv)

/-- A Python value appearing under the `confidence` key of a raw AI item. -/
inductive PyVal where
  | num (q : ℚ)
  | str (s : String)
  | noneVal
deriving DecidableEq

/-- Python `float(x)`: numbers pass through, strings are parsed (the literal
core), anything else (`None`, ...) fails. -/
def pyFloat : PyVal → Option ℚ
  | .num q => some q
  | .str s => parseDecimal s.pyStrip
  | .noneVal => none

/-- One raw dict produced by the AI collaborator, restricted to the keys
`_coerce_ai_suggestions` reads.  `account_code` is the `str()`-image of
`item.get("account_code", "")`; `rationale`/`confidence`/`line_number` are
`none` when the key is absent. -/
structure RawSuggestion where
  account_code : String
  rationale : Option String := none
  confidence : Option PyVal := none
  line_number : Option Int := none
deriving DecidableEq

/-- `float(item.get("confidence", 0.5))` with the `(TypeError, ValueError)`
fallback to `0.5`. -/
def coerceConfidence (c : Option PyVal) : ℚ :=
  match c with
  | none => 1 / 2
  | some v => (pyFloat v).getD (1 / 2)

/-- Rationale of a coerced item: default text, stripped, with the
`Línea N:` prefix when `line_number` is truthy. -/
def coerceRationale (item : RawSuggestion) : String :=
  let base := (item.rationale.getD "Sugerencia generada por el modelo de IA").pyStrip
  match item.line_number with
  | some n => if n ≠ 0 then "Línea " ++ toString n ++ ": " ++ base else base
  | none => base

/-- `GenerateAccountingSuggestions._coerce_ai_suggestions`.  Items whose
stripped `account_code` is empty are skipped.  For a kept item the source then
evaluates `AISuggestion(account_code=code, rationale=..., confidence=...,
source="ai", line_number=..., is_selected=False)`; the `AISuggestion`
dataclass (`slots=True`) has no `is_selected` field, so this constructor call
raises `TypeError` — modelled by `.error .typeErrorIsSelectedKw`. -/
def coerceAiSuggestions : List RawSuggestion → Except Err (List AISuggestion)
  | [] => .ok []
  | item :: rest =>
    let code := item.account_code.pyStrip
    if code = "" then coerceAiSuggestions rest
    else
      let rationale := coerceRationale item
      let confidence := coerceConfidence item.confidence
      .error .typeErrorIsSelectedKw

/-- `GenerateAccountingSuggestions._build_generic_fallback` (this constructor
call passes only declared fields, so it succeeds). -/
def buildGenericFallback (invoice : Invoice) : List AISuggestion :=
  [{ account_code := ""
     rationale :=
       "Servicio de IA no disponible. Por favor, clasifique manualmente esta factura según su plan contable. Proveedor: "
       ++ invoice.supplier_name ++ ". Descripción de líneas: "
       ++ String.intercalate ", " ((invoice.lines.take 3).map InvoiceLine.description) ++ "."
     confidence := 0
     source := "fallback" }]

/-- `GenerateAccountingSuggestions.execute`.  `aiRaw` is the list returned by
`ai_service.generate_suggestions` for this invocation (the collaborator is a
parameter of the use case).  The suggestion store is returned alongside the
result; every raise happens before `replace_for_invoice`, so the store is
returned unchanged on error. -/
def GenerateAccountingSuggestions.execute (invoiceRepo : InMemoryInvoiceRepository)
    (suggestionRepo : InMemoryAISuggestionRepository) (owner invoiceId : String)
    (aiRaw : List RawSuggestion) :
    InMemoryAISuggestionRepository × Except Err (List AISuggestion) :=
  match invoiceRepo.get_by_id invoiceId with
  | none => (suggestionRepo, .error .invoiceNotFound)
  | some invoice =>
    if invoice.owner_id ≠ owner then (suggestionRepo, .error .invoiceNotFound)
    else
      match coerceAiSuggestions aiRaw with
      | .error e => (suggestionRepo, .error e)
      | .ok aiSuggestions =>
        if aiSuggestions ≠ [] then
          (suggestionRepo.replace_for_invoice invoice.id aiSuggestions, .ok aiSuggestions)
        else
          let fallbackSuggestions := buildGenericFallback invoice
          (suggestionRepo.replace_for_invoice invoice.id fallbackSuggestions,
           .ok fallbackSuggestions)

/-- `ExportInvoicesToExcel._get_or_auto_select_suggestion`.  On an empty set
it returns `[]`.  On a non-empty set the comprehension
`[s for s in suggestions if s.is_selected]` evaluates `s.is_selected` on the
first element; the `AISuggestion` dataclass (`slots=True`) has no
`is_selected` attribute, so this raises `AttributeError` — modelled by
`.error .attributeErrorIsSelected`.  The confidence maximum and the
shortest-rationale tie-break written below that line are unreachable. -/
def ExportInvoicesToExcel.getOrAutoSelectSuggestion
    (suggestionRepo : InMemoryAISuggestionRepository) (invoiceId : String) :
    Except Err (List AISuggestion) :=
  let suggestions := suggestionRepo.list_for_invoice invoiceId
  match suggestions with
  | [] => .ok []
  | _ :: _ => .error .attributeErrorIsSelected

/-- Stable insertion sort by issue date (`sorted(invoices, key=...issue_date)`). -/
def insertByDate (a : Invoice) : List Invoice → List Invoice
  | [] => [a]
  | b :: rest =>
    if dateKey b.issue_date < dateKey a.issue_date then b :: insertByDate a rest
    else a :: b :: rest

def sortByIssueDate (l : List Invoice) : List Invoice :=
  l.foldr insertByDate []

/-- One row of the `Resumen` sheet
(`SpreadsheetInvoiceWorkbookBuilder._build_resumen_rows`). -/
structure ResumenRow where
  factura_interna : String
  consecutivo_externo : String
  fecha : String
  proveedor : String
  nit_proveedor : String
  cliente : String
  nit_cliente : String
  moneda : String
  subtotal : ℚ
  impuestos : ℚ
  total : ℚ
  codigo_puc : String
  justificacion : String
  confianza : ℚ
deriving DecidableEq

/-- Body of `_build_resumen_rows` for one invoice.
`selected = next((s for s in suggestions if s.is_selected), None)` yields
`None` on an empty list (blank classification cells, confidence cell `0.0`);
on a non-empty list reading `s.is_selected` raises `AttributeError`. -/
def buildResumenRow (invoice : Invoice) (suggestions : List AISuggestion) :
    Except Err ResumenRow :=
  match suggestions with
  | [] =>
    .ok { factura_interna := invoice.id, consecutivo_externo := invoice.external_id,
          fecha := isoDateStr invoice.issue_date, proveedor := invoice.supplier_name,
          nit_proveedor := invoice.supplier_tax_id, cliente := invoice.customer_name,
          nit_cliente := invoice.customer_tax_id, moneda := invoice.currency,
          subtotal := invoice.total_amount - invoice.tax_amount,
          impuestos := invoice.tax_amount, total := invoice.total_amount,
          codigo_puc := "", justificacion := "", confianza := 0 }
  | _ :: _ => .error .attributeErrorIsSelected

/-- The `suggestions_map` comprehension of `ExportInvoicesToExcel.execute`:
resolve the winner for each ordered invoice. -/
def collectWinners (suggestionRepo : InMemoryAISuggestionRepository) :
    List Invoice → Except Err (List (Invoice × List AISuggestion))
  | [] => .ok []
  | invoice :: rest =>
    match ExportInvoicesToExcel.getOrAutoSelectSuggestion suggestionRepo invoice.id with
    | .error e => .error e
    | .ok winners =>
      match collectWinners suggestionRepo rest with
      | .error e => .error e
      | .ok pairs => .ok ((invoice, winners) :: pairs)

def buildResumenRows : List (Invoice × List AISuggestion) → Except Err (List ResumenRow)
  | [] => .ok []
  | (invoice, sugs) :: rest =>
    match buildResumenRow invoice sugs with
    | .error e => .error e
    | .ok row =>
      match buildResumenRows rest with
      | .error e => .error e
      | .ok rows => .ok (row :: rows)

/-- `ExportInvoicesToExcel.execute`, modelled down to the `Resumen` sheet rows
handed to the workbook writer (the byte-level xlsx packaging is not part of
any property checked here). -/
def ExportInvoicesToExcel.execute (invoiceRepo : InMemoryInvoiceRepository)
    (suggestionRepo : InMemoryAISuggestionRepository) (owner : String) :
    Except Err (List ResumenRow) :=
  let invoices := invoiceRepo.list_for_user owner
  if invoices.isEmpty then .error .noInvoicesToExport
  else
    let ordered := sortByIssueDate invoices
    match collectWinners suggestionRepo ordered with
    | .error e => .error e
    | .ok pairs => buildResumenRows pairs

/-! ### Helper lemmas -/

theorem dictGet_dictPut_self {κ α : Type} [DecidableEq κ]
    (l : List (κ × α)) (k : κ) (v : α) : dictGet (dictPut l k v) k = some v := by
  induction l with
  | nil => simp [dictPut, dictGet]
  | cons p rest ih =>
    obtain ⟨k0, v0⟩ := p
    by_cases h : k0 = k
    · subst h
      simp [dictPut, dictGet]
    · simp [dictPut, dictGet, h, ih]

theorem countKey_dictPut_of_none {κ α : Type} [DecidableEq κ]
    (l : List (κ × α)) (k : κ) (v : α) (h : dictGet l k = none) :
    countKey (dictPut l k v) k = 1 := by
  induction l with
  | nil => simp [dictPut, countKey]
  | cons p rest ih =>
    obtain ⟨k0, v0⟩ := p
    by_cases hk : k0 = k
    · subst hk
      simp [dictGet] at h
    · have h2 : dictGet rest k = none := by simpa [dictGet, hk] using h
      simp [dictPut, countKey, hk, ih h2]

theorem parseLines_length (ls : List XmlElem) :
    ∀ n out, parseLines ls n = .ok out → out.length = ls.length := by
  induction ls with
  | nil =>
    intro n out h
    simp [parseLines] at h
    simp [← h]
  | cons le rest ih =>
    intro n out h
    simp only [parseLines] at h
    cases hpl : parseLine le n with
    | error e => rw [hpl] at h; simp at h
    | ok l =>
      rw [hpl] at h
      cases hr : parseLines rest (n + 1) with
      | error e => rw [hr] at h; simp at h
      | ok ls2 =>
        rw [hr] at h
        simp at h
        simp [← h, ih (n + 1) ls2 hr]

theorem toDecimal_empty : toDecimal "" = .ok 0 := by
  simp [toDecimal]

theorem toDecimal_error_inv (s : String) (e : Err) (h : toDecimal s = .error e) :
    s ≠ "" ∧ parseDecimal s.pyStrip = none := by
  by_cases hs : s = ""
  · subst hs
    rw [toDecimal_empty] at h
    simp at h
  · refine ⟨hs, ?_⟩
    unfold toDecimal at h
    rw [if_pos hs] at h
    cases hp : parseDecimal s.pyStrip with
    | none => rfl
    | some q => rw [hp] at h; simp at h

theorem toDecimal_ok_of_empty (s : String) (h : s = "") : toDecimal s = .ok 0 := by
  subst h; exact toDecimal_empty

/-! ### Concrete inputs -/

def xmlNode (t : QName) (txt : Option String) (ch : List XmlElem) : XmlElem :=
  .mk t [] txt ch

def nsInvoice2 : String := "urn:oasis:names:specification:ubl:schema:xsd:Invoice-2"

def nsCreditNote2 : String := "urn:oasis:names:specification:ubl:schema:xsd:CreditNote-2"

/-- A well-formed UBL invoice with one line, no `cbc:ID`, payable amount `-5`
and tax amount `-1` (a credit-style document the parser accepts). -/
def docNegTotals : XmlElem :=
  .mk ⟨nsInvoice2, "Invoice"⟩ [] none
    [xmlNode (cbcQ "IssueDate") (some "2024-01-01") [],
     xmlNode (cacQ "LegalMonetaryTotal") none
       [.mk (cbcQ "PayableAmount") [("currencyID", "COP")] (some "-5") []],
     xmlNode (cacQ "TaxTotal") none [xmlNode (cbcQ "TaxAmount") (some "-1") []],
     xmlNode (cacQ "InvoiceLine") none
       [xmlNode (cbcQ "ID") (some "1") [],
        xmlNode (cacQ "Item") none [xmlNode (cbcQ "Description") (some "Item A") []],
        xmlNode (cbcQ "InvoicedQuantity") (some "1") [],
        xmlNode (cacQ "Price") none [xmlNode (cbcQ "PriceAmount") (some "5") []],
        xmlNode (cbcQ "LineExtensionAmount") (some "5") []]]

/-- The payload `UBLInvoiceParser.parse` returns for `docNegTotals`. -/
def parsedNegTotals : ParsedInvoice :=
  { external_id := "", issue_date := ⟨2024, 1, 1⟩, supplier_name := "",
    supplier_tax_id := "", customer_name := "", customer_tax_id := "",
    currency := "COP", total_amount := -5, tax_amount := -1,
    lines := [⟨"1", "Item A", 1, 5, 5⟩], raw_xml := "" }

/-- A well-formed UBL credit note with one `cac:CreditNoteLine`. -/
def docCreditNote : XmlElem :=
  .mk ⟨nsCreditNote2, "CreditNote"⟩ [] none
    [xmlNode (cbcQ "ID") (some "CN-1") [],
     xmlNode (cbcQ "IssueDate") (some "2024-02-01") [],
     xmlNode (cacQ "LegalMonetaryTotal") none
       [.mk (cbcQ "PayableAmount") [("currencyID", "COP")] (some "50") []],
     xmlNode (cacQ "CreditNoteLine") none
       [xmlNode (cbcQ "ID") (some "1") [],
        xmlNode (cacQ "Item") none [xmlNode (cbcQ "Description") (some "Refund") []],
        xmlNode (cbcQ "CreditedQuantity") (some "1") [],
        xmlNode (cbcQ "LineExtensionAmount") (some "50") []]]

/-- A complete well-formed UBL invoice (external id `INV-1`). -/
def docInv1 : XmlElem :=
  .mk ⟨nsInvoice2, "Invoice"⟩ [] none
    [xmlNode (cbcQ "ID") (some "INV-1") [],
     xmlNode (cbcQ "IssueDate") (some "2024-03-01") [],
     xmlNode (cacQ "AccountingSupplierParty") none
       [xmlNode (cacQ "Party") none
         [xmlNode (cacQ "PartyName") none [xmlNode (cbcQ "Name") (some "ACME SAS") []]]],
     xmlNode (cacQ "LegalMonetaryTotal") none
       [.mk (cbcQ "PayableAmount") [("currencyID", "COP")] (some "100") []],
     xmlNode (cacQ "InvoiceLine") none
       [xmlNode (cbcQ "ID") (some "1") [],
        xmlNode (cacQ "Item") none [xmlNode (cbcQ "Description") (some "Servicio") []],
        xmlNode (cbcQ "InvoicedQuantity") (some "1") [],
        xmlNode (cacQ "Price") none [xmlNode (cbcQ "PriceAmount") (some "100") []],
        xmlNode (cbcQ "LineExtensionAmount") (some "100") []]]

def contentInv1 : Content := ⟨"<Invoice>INV-1</Invoice>", some docInv1⟩

/-- An invoice record as stored after an upload (used by the suggestion and
export scenarios). -/
def invoiceA : Invoice :=
  { id := "inv-a", owner_id := "owner-a", external_id := "EXT-A",
    issue_date := ⟨2024, 1, 15⟩, supplier_name := "ACME SAS",
    supplier_tax_id := "900123456", customer_name := "Cliente SA",
    customer_tax_id := "900654321", currency := "COP", total_amount := 100,
    tax_amount := 19,
    lines := [⟨"1", "Flete urbano", 1, 100, 100⟩] }

def repoA : InMemoryInvoiceRepository :=
  InMemoryInvoiceRepository.add ⟨[], [], 0⟩ invoiceA

/-- A raw AI item with a non-empty account code (the shape returned by the
Gemini collaborator and by the repository's own test stub). -/
def rawAiItem : RawSuggestion :=
  { account_code := "5305", rationale := some "Flete y transporte complementario",
    confidence := some (.num (7 / 10)) }

/-- Suggestion store holding the fallback suggestion for `invoiceA` (the state
reached by the export test after upload + generation). -/
def storeA : InMemoryAISuggestionRepository :=
  InMemoryAISuggestionRepository.replace_for_invoice ⟨[]⟩ "inv-a"
    (buildGenericFallback invoiceA)

/-- A stored suggestion set with a unique maximum-confidence entry. -/
def storeB : InMemoryAISuggestionRepository :=
  InMemoryAISuggestionRepository.replace_for_invoice ⟨[]⟩ "inv-b"
    [{ account_code := "4135", rationale := "Venta de mercancías",
       confidence := 9 / 10, source := "ai" }]

/-- C5 (amended): for every well-formed XML document the parser accepts, the
returned payload has exactly one line per direct `cac:InvoiceLine` child
element (N lines for N elements), and at least one.  The original claim's
further conjuncts — non-empty `external_id` and
`total_amount ≥ tax_amount ≥ 0` — do not hold: the parser validates neither
(see `parse_accepts_invalid_totals`). -/
theorem parse_line_count (root : XmlElem) (raw : String) (p : ParsedInvoice)
    (h : UBLInvoiceParser.parse root raw = .ok p) :
    p.lines.length = (childrenNamed root (cacQ "InvoiceLine")).length ∧ p.lines ≠ [] := by
  unfold UBLInvoiceParser.parse at h
  dsimp only at h
  iterate 10
    all_goals try split at h
    all_goals try simp only [reduceCtorEq] at h
  simp only [Except.ok.injEq] at h
  subst h
  refine ⟨parseLines_length _ 0 _ ?_, ?_⟩
  · assumption
  · intro hnil
    simp_all

theorem generate_ok_inv (repo : InMemoryInvoiceRepository)
    (store s2 : InMemoryAISuggestionRepository) (owner iid : String)
    (raw : List RawSuggestion) (r : List AISuggestion)
    (h : GenerateAccountingSuggestions.execute repo store owner iid raw = (s2, .ok r)) :
    ∃ inv, repo.get_by_id iid = some inv ∧ inv.owner_id = owner ∧
      ∃ ai, coerceAiSuggestions raw = .ok ai ∧
        ((ai ≠ [] ∧ r = ai) ∨ (ai = [] ∧ r = buildGenericFallback inv)) ∧
        s2 = store.replace_for_invoice inv.id r := by
  unfold GenerateAccountingSuggestions.execute at h
  split at h
  · simp [Prod.ext_iff] at h
  · rename_i inv heq
    dsimp only at h
    split at h
    · simp [Prod.ext_iff] at h
    · rename_i how
      split at h
      · simp [Prod.ext_iff] at h
      · rename_i ai hai
        split at h
        · rename_i hne
          simp [Prod.ext_iff] at h
          exact ⟨inv, heq, by simpa using how, ai, hai,
            Or.inl ⟨hne, h.2.symm⟩, by rw [← h.2, ← h.1]⟩
        · rename_i hne
          simp [Prod.ext_iff] at h
          refine ⟨inv, heq, by simpa using how, ai, hai,
            Or.inr ⟨by simpa using hne, h.2.symm⟩, by rw [← h.2, ← h.1]⟩

theorem upload_ok_inv (r0 r1 : InMemoryInvoiceRepository) (owner fn : String)
    (c : Content) (inv : Invoice)
    (h : UploadInvoice.execute r0 owner fn c = (r1, .ok inv)) :
    ∃ parsed, parseBytes c = .ok parsed ∧ c.raw.pyStrip ≠ "" ∧
      parsed.external_id.pyStrip ≠ "" ∧
      inv.external_id = parsed.external_id.pyStrip ∧ inv.owner_id = owner ∧
      r0.find_by_owner_and_external_id owner parsed.external_id.pyStrip = none ∧
      r1.by_owner = dictPut r0.by_owner (owner, parsed.external_id.pyStrip) inv := by
  unfold UploadInvoice.execute at h
  split at h
  · simp [Prod.ext_iff] at h
  · rename_i hraw
    split at h
    · simp [Prod.ext_iff] at h
    · rename_i parsed hp
      dsimp only at h
      split at h
      · simp [Prod.ext_iff] at h
      · rename_i hext
        split at h
        · simp [Prod.ext_iff] at h
        · rename_i hfind
          simp [Prod.ext_iff] at h
          obtain ⟨hr1, hinv⟩ := h
          refine ⟨parsed, hp, hraw, hext, ?_, ?_, hfind, ?_⟩
          · rw [← hinv]; rfl
          · rw [← hinv]; rfl
          · rw [← hr1, ← hinv]
            rfl

/-- C1: for every invoice owned by `owner`, if the AI collaborator returns an
empty list then `GenerateAccountingSuggestions.execute` returns exactly one
suggestion with empty `account_code`, `confidence` 0, `source` `"fallback"`,
and a rationale naming the supplier and the first three line descriptions; and
exactly that one-element list is what `replace_for_invoice` stores. -/
theorem generate_fallback_on_empty_ai (repo : InMemoryInvoiceRepository)
    (store : InMemoryAISuggestionRepository) (owner iid : String) (inv : Invoice)
    (h1 : repo.get_by_id iid = some inv) (h2 : inv.owner_id = owner) :
    ∃ fb : AISuggestion,
      GenerateAccountingSuggestions.execute repo store owner iid [] =
        (store.replace_for_invoice inv.id [fb], .ok [fb]) ∧
      fb.account_code = "" ∧ fb.confidence = 0 ∧ fb.source = "fallback" ∧
      fb.rationale =
        "Servicio de IA no disponible. Por favor, clasifique manualmente esta factura según su plan contable. Proveedor: "
          ++ inv.supplier_name ++ ". Descripción de líneas: "
          ++ String.intercalate ", " ((inv.lines.take 3).map InvoiceLine.description) ++ "." ∧
      (store.replace_for_invoice inv.id [fb]).list_for_invoice inv.id = [fb] := by
  refine ⟨{ account_code := ""
            rationale :=
              "Servicio de IA no disponible. Por favor, clasifique manualmente esta factura según su plan contable. Proveedor: "
                ++ inv.supplier_name ++ ". Descripción de líneas: "
                ++ String.intercalate ", " ((inv.lines.take 3).map InvoiceLine.description) ++ "."
            confidence := 0
            source := "fallback" }, ?_, rfl, rfl, rfl, rfl, ?_⟩
  · simp [GenerateAccountingSuggestions.execute, h1, h2, coerceAiSuggestions,
      buildGenericFallback]
  · unfold InMemoryAISuggestionRepository.list_for_invoice
      InMemoryAISuggestionRepository.replace_for_invoice
    rw [dictGet_dictPut_self]
    rfl

/-- C9: suggestion generation is idempotent with respect to the store: two
successive successful runs of `GenerateAccountingSuggestions.execute` with the
same AI payload produce the same result list, and the store afterwards holds
exactly the latest list (same size as after the first call, never the
concatenation of both). -/
theorem generate_idempotent (repo : InMemoryInvoiceRepository)
    (s0 s1 s2 : InMemoryAISuggestionRepository) (owner iid : String)
    (raw : List RawSuggestion) (r1 r2 : List AISuggestion)
    (h1 : GenerateAccountingSuggestions.execute repo s0 owner iid raw = (s1, .ok r1))
    (h2 : GenerateAccountingSuggestions.execute repo s1 owner iid raw = (s2, .ok r2)) :
    r2 = r1 ∧ ∃ inv, repo.get_by_id iid = some inv ∧
      s2.list_for_invoice inv.id = r2 ∧
      (s2.list_for_invoice inv.id).length = r1.length := by
  obtain ⟨inv, hg, hown, ai, hai, hcase1, hs1⟩ := generate_ok_inv _ _ _ _ _ _ _ h1
  obtain ⟨inv2, hg2, hown2, ai2, hai2, hcase2, hs2⟩ := generate_ok_inv _ _ _ _ _ _ _ h2
  rw [hg] at hg2
  obtain rfl : inv = inv2 := by injection hg2
  rw [hai] at hai2
  obtain rfl : ai = ai2 := by injection hai2
  have hr : r2 = r1 := by
    rcases hcase1 with ⟨hne, rfl⟩ | ⟨hemp, rfl⟩ <;>
      rcases hcase2 with ⟨hne2, rfl⟩ | ⟨hemp2, rfl⟩
    · rfl
    · exact absurd hemp2 hne
    · exact absurd hemp hne2
    · rfl
  have hlist : s2.list_for_invoice inv.id = r2 := by
    rw [hs2]
    unfold InMemoryAISuggestionRepository.list_for_invoice
      InMemoryAISuggestionRepository.replace_for_invoice
    rw [dictGet_dictPut_self]
    rfl
  exact ⟨hr, inv, hg, hlist, by rw [hlist, hr]⟩

/-- C7: after `UploadInvoice.execute` has succeeded for `(owner, E)`, a second
call with the same owner and any content whose parse yields the same external
id `E` raises `InvoiceAlreadyExistsError`, and the store still contains
exactly one invoice keyed `(owner, E)`. -/
theorem upload_duplicate_rejected (r0 r1 : InMemoryInvoiceRepository)
    (owner fn1 fn2 E : String) (c1 c2 : Content) (inv1 : Invoice)
    (p2 : ParsedInvoice)
    (h1 : UploadInvoice.execute r0 owner fn1 c1 = (r1, .ok inv1))
    (hE : inv1.external_id = E)
    (h2raw : c2.raw.pyStrip ≠ "")
    (h2p : parseBytes c2 = .ok p2)
    (h2E : p2.external_id.pyStrip = E) :
    UploadInvoice.execute r1 owner fn2 c2 = (r1, .error .invoiceAlreadyExists) ∧
      countKey r1.by_owner (owner, E) = 1 := by
  obtain ⟨parsed, hp, hraw, hext, hinvE, hown, hfind, hby⟩ := upload_ok_inv _ _ _ _ _ _ h1
  have hEeq : parsed.external_id.pyStrip = E := by rw [← hE, hinvE]
  rw [hEeq] at hext hfind hby
  have hEne : E ≠ "" := hext
  constructor
  · unfold UploadInvoice.execute
    rw [if_neg h2raw, h2p]
    dsimp only
    rw [h2E, if_neg hEne]
    have : r1.find_by_owner_and_external_id owner E = some inv1 := by
      unfold InMemoryInvoiceRepository.find_by_owner_and_external_id
      rw [hby, dictGet_dictPut_self]
    rw [this]
  · rw [hby]
    exact countKey_dictPut_of_none _ _ _ hfind

/-- C8: `UploadInvoice.execute` raises `InvalidInvoicePayloadError` exactly
when the content is empty/whitespace-only, the parser raises a parse error, or
the parsed external id is empty after trimming; on every failure the store is
unchanged and the only errors that escape are `InvalidInvoicePayloadError` and
`InvoiceAlreadyExistsError` (never the parser's own `ValueError`). -/
theorem upload_invalid_payload_characterization (r : InMemoryInvoiceRepository)
    (owner fn : String) (c : Content) :
    ((UploadInvoice.execute r owner fn c).2 = .error .invalidInvoicePayload ↔
      c.raw.pyStrip = "" ∨ (∃ m, parseBytes c = .error m) ∨
        (∃ p, parseBytes c = .ok p ∧ p.external_id.pyStrip = "")) ∧
    (∀ e, (UploadInvoice.execute r owner fn c).2 = .error e →
      (UploadInvoice.execute r owner fn c).1 = r ∧
        (e = .invalidInvoicePayload ∨ e = .invoiceAlreadyExists)) := by
  by_cases hb : c.raw.pyStrip = ""
  · constructor
    · simp [UploadInvoice.execute, hb]
    · intro e he
      simp [UploadInvoice.execute, hb] at he ⊢
      exact Or.inl he.symm
  · cases hp : parseBytes c with
    | error m =>
      constructor
      · simp [UploadInvoice.execute, hb, hp]
      · intro e he
        simp [UploadInvoice.execute, hb, hp] at he ⊢
        exact Or.inl he.symm
    | ok p =>
      by_cases hext : p.external_id.pyStrip = ""
      · constructor
        · simp [UploadInvoice.execute, hb, hp, hext]
        · intro e he
          simp [UploadInvoice.execute, hb, hp, hext] at he ⊢
          exact Or.inl he.symm
      · cases hf : r.find_by_owner_and_external_id owner p.external_id.pyStrip with
        | some other =>
          constructor
          · simp [UploadInvoice.execute, hb, hp, hext, hf]
          · intro e he
            simp [UploadInvoice.execute, hb, hp, hext, hf] at he ⊢
            exact Or.inr he.symm
        | none =>
          constructor
          · simp [UploadInvoice.execute, hb, hp, hext, hf]
          · intro e he
            simp [UploadInvoice.execute, hb, hp, hext, hf] at he

/-- C10: for every invoice-line element, a numeric field whose element is
absent or has empty (or whitespace-only) text — i.e. whose `_read_text` image
is `""` — is assigned the decimal value 0 and never causes a failure; a
`ParseError` for a line's numeric field occurs only when the text is present
and not convertible to a decimal. -/
theorem line_numeric_defaults (le : XmlElem) (idx : Nat) :
    (∀ l, parseLine le idx = .ok l →
      (readText le [cbcQ "InvoicedQuantity"] = "" → l.quantity = 0) ∧
      (readText le [cacQ "Price", cbcQ "PriceAmount"] = "" → l.unit_price = 0) ∧
      (readText le [cbcQ "LineExtensionAmount"] = "" → l.line_extension_amount = 0)) ∧
    ((∃ a, toDecimal (readText le [cbcQ "InvoicedQuantity"]) = .ok a) →
     (∃ b, toDecimal (readText le [cacQ "Price", cbcQ "PriceAmount"]) = .ok b) →
     (∃ c, toDecimal (readText le [cbcQ "LineExtensionAmount"]) = .ok c) →
     ∃ l, parseLine le idx = .ok l) ∧
    (∀ e, parseLine le idx = .error e →
      ∃ s, (s = readText le [cbcQ "InvoicedQuantity"] ∨
            s = readText le [cacQ "Price", cbcQ "PriceAmount"] ∨
            s = readText le [cbcQ "LineExtensionAmount"]) ∧
        s ≠ "" ∧ parseDecimal s.pyStrip = none) := by
  cases hq : toDecimal (readText le [cbcQ "InvoicedQuantity"]) with
  | error e0 =>
    obtain ⟨hne, hnone⟩ := toDecimal_error_inv _ _ hq
    refine ⟨?_, ?_, ?_⟩
    · intro l hl
      unfold parseLine at hl
      dsimp only at hl
      rw [hq] at hl
      simp at hl
    · rintro ⟨a, ha⟩ _ _
      simp at ha
    · intro e he
      exact ⟨readText le [cbcQ "InvoicedQuantity"], Or.inl rfl, hne, hnone⟩
  | ok a =>
    cases hpr : toDecimal (readText le [cacQ "Price", cbcQ "PriceAmount"]) with
    | error e0 =>
      obtain ⟨hne, hnone⟩ := toDecimal_error_inv _ _ hpr
      refine ⟨?_, ?_, ?_⟩
      · intro l hl
        unfold parseLine at hl
        dsimp only at hl
        rw [hq, hpr] at hl
        simp at hl
      · rintro _ ⟨b, hb⟩ _
        simp at hb
      · intro e he
        exact ⟨readText le [cacQ "Price", cbcQ "PriceAmount"], Or.inr (Or.inl rfl), hne, hnone⟩
    | ok b =>
      cases hx : toDecimal (readText le [cbcQ "LineExtensionAmount"]) with
      | error e0 =>
        obtain ⟨hne, hnone⟩ := toDecimal_error_inv _ _ hx
        refine ⟨?_, ?_, ?_⟩
        · intro l hl
          unfold parseLine at hl
          dsimp only at hl
          rw [hq, hpr, hx] at hl
          simp at hl
        · rintro _ _ ⟨cv, hc⟩
          simp at hc
        · intro e he
          exact ⟨readText le [cbcQ "LineExtensionAmount"], Or.inr (Or.inr rfl), hne, hnone⟩
      | ok cv =>
        have hok : parseLine le idx = .ok
            ⟨pyOrStr (readText le [cbcQ "ID"]) (toString (idx + 1)),
             firstNonEmpty
               [readText le [cacQ "Item", cbcQ "Description"],
                readText le [cacQ "Item", cacQ "ItemIdentification", cbcQ "ID"]],
             a, b, cv⟩ := by
          unfold parseLine
          dsimp only
          rw [hq, hpr, hx]
        refine ⟨?_, ?_, ?_⟩
        · intro l hl
          rw [hok] at hl
          have hfields := Except.ok.inj hl
          refine ⟨?_, ?_, ?_⟩
          · intro hemp
            rw [hemp, toDecimal_empty] at hq
            have ha0 : (0 : ℚ) = a := by injection hq
            rw [← hfields]
            exact ha0.symm
          · intro hemp
            rw [hemp, toDecimal_empty] at hpr
            have hb0 : (0 : ℚ) = b := by injection hpr
            rw [← hfields]
            exact hb0.symm
          · intro hemp
            rw [hemp, toDecimal_empty] at hx
            have hc0 : (0 : ℚ) = cv := by injection hx
            rw [← hfields]
            exact hc0.symm
        · intro _ _ _
          exact ⟨_, hok⟩
        · intro e he
          rw [hok] at he
          simp at he

/-- C2 (failing evaluation): with an AI payload carrying one usable item
(non-empty `account_code`), `GenerateAccountingSuggestions.execute` does not
return the coerced suggestions — it raises `TypeError`, because
`_coerce_ai_suggestions` passes `is_selected=False` to the `AISuggestion`
constructor while the dataclass declares no such field; the store is left
untouched. -/
theorem coerce_ai_raises_type_error :
    GenerateAccountingSuggestions.execute repoA ⟨[]⟩ "owner-a" "inv-a" [rawAiItem] =
      (⟨[]⟩, .error .typeErrorIsSelectedKw) := rfl

/-- C3 (failing evaluation): exporting an owner whose invoice has a non-empty
stored suggestion set raises `AttributeError` instead of producing the summary
row: `_get_or_auto_select_suggestion` reads `s.is_selected`, an attribute the
`AISuggestion` dataclass does not declare.  No winning suggestion ever reaches
the summary-sheet cells. -/
theorem export_raises_attribute_error :
    ExportInvoicesToExcel.execute repoA storeA "owner-a" =
      .error .attributeErrorIsSelected := rfl

/-- C4 (failing evaluation): the selection policy never resolves a winner on
any non-empty suggestion set — even a singleton set with a unique maximum
confidence raises `AttributeError` at the `s.is_selected` filter — so no
deterministic winner is yielded at all. -/
theorem selection_raises_attribute_error :
    ExportInvoicesToExcel.getOrAutoSelectSuggestion storeB "inv-b" =
      .error .attributeErrorIsSelected := rfl

/-- C5 (counterexample): `docNegTotals` is a well-formed invoice document with
one invoice-line element that `parse` accepts, yet the returned payload has an
empty `external_id`, a negative `tax_amount`, and
`total_amount < tax_amount` — refuting the claimed
`external_id ≠ "" ∧ total_amount ≥ tax_amount ≥ 0` invariant. -/
theorem parse_accepts_invalid_totals :
    UBLInvoiceParser.parse docNegTotals "" = .ok parsedNegTotals ∧
    parsedNegTotals.lines.length = 1 ∧
    ¬(parsedNegTotals.external_id ≠ "" ∧ 0 ≤ parsedNegTotals.tax_amount ∧
        parsedNegTotals.tax_amount ≤ parsedNegTotals.total_amount) :=
  ⟨rfl, rfl, by decide⟩

/-- C6 (failing evaluation): a well-formed UBL CreditNote with one
`cac:CreditNoteLine` is rejected by `parse` with the "no product lines" error,
because the parser only searches for `cac:InvoiceLine` children — the
CreditNote profile is not accepted. -/
theorem parse_rejects_credit_note :
    (childrenNamed docCreditNote (cacQ "CreditNoteLine")).length = 1 ∧
    UBLInvoiceParser.parse docCreditNote "" =
      .error (.parseError "No se encontraron líneas de producto en la factura") :=
  ⟨rfl, rfl⟩

/-- Witness for C1 at a concrete store and invoice. -/
theorem generate_fallback_witness :
    ∃ fb : AISuggestion,
      GenerateAccountingSuggestions.execute repoA ⟨[]⟩ "owner-a" "inv-a" [] =
        ((⟨[]⟩ : InMemoryAISuggestionRepository).replace_for_invoice invoiceA.id [fb],
          .ok [fb]) ∧
      fb.account_code = "" ∧ fb.confidence = 0 ∧ fb.source = "fallback" := by
  obtain ⟨fb, h1, h2, h3, h4, _, _⟩ :=
    generate_fallback_on_empty_ai repoA ⟨[]⟩ "owner-a" "inv-a" invoiceA rfl rfl
  exact ⟨fb, h1, h2, h3, h4⟩

/-- Witness for C5 (amended) at `docNegTotals`. -/
theorem parse_line_count_witness :
    ∃ p, UBLInvoiceParser.parse docNegTotals "" = .ok p ∧
      p.lines.length = (childrenNamed docNegTotals (cacQ "InvoiceLine")).length ∧
      p.lines ≠ [] := by
  have h : UBLInvoiceParser.parse docNegTotals "" = .ok parsedNegTotals := rfl
  have hc := parse_line_count docNegTotals "" parsedNegTotals h
  exact ⟨parsedNegTotals, h, hc.1, hc.2⟩

/-- The repository state after the first successful upload of `contentInv1`. -/
def repoW1 : InMemoryInvoiceRepository :=
  (UploadInvoice.execute ⟨[], [], 0⟩ "owner-w" "f1.xml" contentInv1).1

/-- The invoice created by the first upload of `contentInv1`. -/
def invW : Invoice :=
  Invoice.create "uuid-0" "owner-w" "INV-1" ⟨2024, 3, 1⟩ "ACME SAS" "" "" "" "COP"
    100 0 [⟨"1", "Servicio", 1, 100, 100⟩] "f1.xml" "<Invoice>INV-1</Invoice>"

/-- The payload `parseBytes` extracts from `contentInv1`. -/
def parsedW : ParsedInvoice :=
  { external_id := "INV-1", issue_date := ⟨2024, 3, 1⟩, supplier_name := "ACME SAS",
    supplier_tax_id := "", customer_name := "", customer_tax_id := "",
    currency := "COP", total_amount := 100, tax_amount := 0,
    lines := [⟨"1", "Servicio", 1, 100, 100⟩], raw_xml := "<Invoice>INV-1</Invoice>" }

/-- Witness for C7: a concrete duplicate upload is rejected and the store
keeps exactly one invoice under the key. -/
theorem upload_duplicate_witness :
    UploadInvoice.execute repoW1 "owner-w" "f2.xml" contentInv1 =
      (repoW1, .error .invoiceAlreadyExists) ∧
    countKey repoW1.by_owner ("owner-w", "INV-1") = 1 :=
  upload_duplicate_rejected ⟨[], [], 0⟩ repoW1 "owner-w" "f1.xml" "f2.xml" "INV-1"
    contentInv1 contentInv1 invW parsedW rfl rfl (by decide) rfl rfl

/-- Witness for C8: an all-whitespace upload fails with
`InvalidInvoicePayloadError`. -/
theorem upload_invalid_witness :
    (UploadInvoice.execute ⟨[], [], 0⟩ "owner-w" "f.xml" ⟨"   ", none⟩).2 =
      .error .invalidInvoicePayload :=
  (upload_invalid_payload_characterization ⟨[], [], 0⟩ "owner-w" "f.xml"
    ⟨"   ", none⟩).1.mpr (Or.inl (by decide))

/-- The suggestion store after running generation twice on `invoiceA`. -/
def storeA2 : InMemoryAISuggestionRepository :=
  InMemoryAISuggestionRepository.replace_for_invoice storeA "inv-a"
    (buildGenericFallback invoiceA)

/-- Witness for C9 at a concrete invoice and an empty AI payload. -/
theorem generate_idempotent_witness :
    buildGenericFallback invoiceA = buildGenericFallback invoiceA ∧
    ∃ inv, repoA.get_by_id "inv-a" = some inv ∧
      storeA2.list_for_invoice inv.id = buildGenericFallback invoiceA ∧
      (storeA2.list_for_invoice inv.id).length = (buildGenericFallback invoiceA).length :=
  generate_idempotent repoA ⟨[]⟩ storeA storeA2 "owner-a" "inv-a" []
    (buildGenericFallback invoiceA) (buildGenericFallback invoiceA) rfl rfl

/-- A line element with no numeric children at all. -/
def lineEmptyNums : XmlElem := .mk (cacQ "InvoiceLine") [] none []

/-- Witness for C10: a line with all three numeric elements absent parses to
quantity, unit price and line total all 0. -/
theorem line_numeric_defaults_witness :
    ∃ l, parseLine lineEmptyNums 0 = .ok l ∧ l.quantity = 0 ∧ l.unit_price = 0 ∧
      l.line_extension_amount = 0 := by
  obtain ⟨l, hl⟩ := (line_numeric_defaults lineEmptyNums 0).2.1 ⟨0, rfl⟩ ⟨0, rfl⟩ ⟨0, rfl⟩
  obtain ⟨hq, hp, hx⟩ := (line_numeric_defaults lineEmptyNums 0).1 l hl
  exact ⟨l, hl, hq rfl, hp rfl, hx rfl⟩
